import Mathlib

/-!
Verification of the school-observation wizard (`streamlit_app.py`).

The repository is a Streamlit multi-step form.  We embed the parts of the
program the specification talks about:

* the JSON serialization performed by `json.dumps` on the concrete value
  shapes this program serializes (ordered dictionaries of strings, with
  Python's default separators, which preserve insertion order);
* the data model held in `st.session_state` (page number, visit type, and
  the per-step collected entities);
* `save_observation` (row assembly and the single `append_row` call),
  `add_new_teacher`, `submit_form`, and the five page-rendering sections
  `basic_details_section`, `teacher_selection_section`,
  `classroom_observation_section`, `infrastructure_section`,
  `community_section`;
* the page dispatch at the bottom of `streamlit_app.py`, as a step function
  on an application state (session plus the "Observations" sheet contents).

Each render of the current page, together with the widget values shown and
the (at most one) button clicked during that render, is one `Event`.  A
section either finishes normally (`Except.ok`) or raises an uncaught
Python exception, e.g. a missing `st.session_state` key (`Except.error`,
carrying the session as mutated up to the raise point).
-/

namespace SchoolObs

/-! ## JSON serialization (`json.dumps` on the shapes used by the program)

Python's `json.dumps` with default arguments separates items with ", " and
keys from values with ": ", and keeps dictionary insertion order.  The
strings this program serializes (names, dates, fixed metric answers, drive
file ids) contain no characters needing escapes beyond the ones below. -/

def escChar (c : Char) : String :=
  if c = '"' then "\\\""
  else if c = '\\' then "\\\\"
  else if c = '\n' then "\\n"
  else if c = '\r' then "\\r"
  else if c = '\t' then "\\t"
  else String.singleton c

def jsonEscape (s : String) : String :=
  String.join (s.data.map escChar)

def jsonStr (s : String) : String :=
  "\"" ++ jsonEscape s ++ "\""

/-- A JSON object whose member values are already serialized strings. -/
def jsonObj (kvs : List (String × String)) : String :=
  "\x7b" ++ String.intercalate ", " (kvs.map (fun kv => jsonStr kv.1 ++ ": " ++ kv.2)) ++ "\x7d"

/-- A JSON array whose elements are already serialized strings. -/
def jsonArr (xs : List String) : String :=
  "[" ++ String.intercalate ", " xs ++ "]"

/-! ## Data model (the dictionaries stored in `st.session_state`) -/

/-- `st.session_state.basic_details` (`basic_details_section`, lines 368-373). -/
structure BasicDetails where
  pm_name : String
  school_name : String
  visit_date : String
  visit_type : String
deriving DecidableEq

/-- `st.session_state.teacher_details` (`teacher_selection_section`, lines 430-433). -/
structure TeacherDetails where
  trained_teachers : List String
  untrained_teachers : List String
deriving DecidableEq

/-- The `teacher_metrics` dictionary built per teacher (lines 467-483). -/
structure TeacherMetrics where
  lesson_plan : String
  movement : String
  activities : String
deriving DecidableEq

/-- The `student_metrics` dictionary built per teacher (lines 487-503). -/
structure StudentMetrics where
  questions : String
  explanation : String
  involvement : String
deriving DecidableEq

/-- `observations[teacher]` (lines 505-508). -/
structure ObservationEntry where
  teacher_metrics : TeacherMetrics
  student_metrics : StudentMetrics
deriving DecidableEq

/-- One uploaded file record (`handle_media_upload`, lines 237-241: keys
`type`, `name`, `file_id` in insertion order). -/
structure MediaFile where
  ftype : String
  name : String
  file_id : String
deriving DecidableEq

/-- `infrastructure_data[subject]` (`infrastructure_section`, lines 573-577). -/
structure InfrastructureEntry where
  materials : String
  storage : String
  condition : String
deriving DecidableEq

/-- `community_data` (`community_section`, lines 621-626). -/
structure CommunityData where
  parent_meetings : String
  community_support : String
  volunteer_programs : String
  resource_mobilization : String
deriving DecidableEq

/-- Serialization of `teacher_metrics` by `json.dumps`. -/
def teacher_metrics_json (m : TeacherMetrics) : String :=
  jsonObj [("lesson_plan", jsonStr m.lesson_plan),
           ("movement", jsonStr m.movement),
           ("activities", jsonStr m.activities)]

/-- Serialization of `student_metrics` by `json.dumps`. -/
def student_metrics_json (m : StudentMetrics) : String :=
  jsonObj [("questions", jsonStr m.questions),
           ("explanation", jsonStr m.explanation),
           ("involvement", jsonStr m.involvement)]

/-- Serialization of one `observations[teacher]` value. -/
def observation_entry_json (e : ObservationEntry) : String :=
  jsonObj [("teacher_metrics", teacher_metrics_json e.teacher_metrics),
           ("student_metrics", student_metrics_json e.student_metrics)]

/-- Serialization of the `observations` dictionary, in insertion order. -/
def observations_json (obs : List (String × ObservationEntry)) : String :=
  jsonObj (obs.map (fun kv => (kv.1, observation_entry_json kv.2)))

/-- Serialization of `data["teacher_details"]` (keys `trained_teachers`,
`untrained_teachers` in insertion order). -/
def teacher_details_json (td : TeacherDetails) : String :=
  jsonObj [("trained_teachers", jsonArr (td.trained_teachers.map jsonStr)),
           ("untrained_teachers", jsonArr (td.untrained_teachers.map jsonStr))]

/-- Serialization of one uploaded-file dictionary. -/
def media_file_json (f : MediaFile) : String :=
  jsonObj [("type", jsonStr f.ftype),
           ("name", jsonStr f.name),
           ("file_id", jsonStr f.file_id)]

/-- Serialization of the `media_data` dictionary (teacher → list of files). -/
def media_json (m : List (String × List MediaFile)) : String :=
  jsonObj (m.map (fun kv => (kv.1, jsonArr (kv.2.map media_file_json))))

/-- Serialization of one `infrastructure_data[subject]` value. -/
def infrastructure_entry_json (e : InfrastructureEntry) : String :=
  jsonObj [("materials", jsonStr e.materials),
           ("storage", jsonStr e.storage),
           ("condition", jsonStr e.condition)]

/-- Serialization of the `infrastructure_data` dictionary. -/
def infrastructure_json (l : List (String × InfrastructureEntry)) : String :=
  jsonObj (l.map (fun kv => (kv.1, infrastructure_entry_json kv.2)))

/-- Serialization of `community_data` (insertion order of lines 621-626). -/
def community_json (c : CommunityData) : String :=
  jsonObj [("parent_meetings", jsonStr c.parent_meetings),
           ("community_support", jsonStr c.community_support),
           ("volunteer_programs", jsonStr c.volunteer_programs),
           ("resource_mobilization", jsonStr c.resource_mobilization)]

/-! ## Record assembly and persistence (`save_observation`, lines 277-308) -/

/-- The `data` dictionary handed to `save_observation` by `submit_form`
(lines 640-650).  `infrastructure`/`community` are `none` when
`submit_form` did not put the key into the dictionary (then
`data.get(..., \x7b\x7d)` yields an empty dictionary); `community = none` also
models a present-but-empty dictionary, which serializes identically. -/
structure ObservationFormData where
  basic_details : BasicDetails
  teacher_details : TeacherDetails
  observations : List (String × ObservationEntry)
  media : List (String × List MediaFile)
  infrastructure : Option (List (String × InfrastructureEntry))
  community : Option CommunityData
deriving DecidableEq

/-- The row list built by `save_observation` (lines 285-296).  `timestamp`
is the `datetime.now().strftime(...)` reading.  Columns 7 and 8 clear the
infrastructure/community payload unless the visit type recorded in
`basic_details` is `Monthly` (line 293-294). -/
def observation_row (timestamp : String) (data : ObservationFormData) : List String :=
  [timestamp,
   data.basic_details.pm_name,
   data.basic_details.school_name,
   data.basic_details.visit_date,
   data.basic_details.visit_type,
   teacher_details_json data.teacher_details,
   observations_json data.observations,
   if data.basic_details.visit_type = "Monthly"
     then infrastructure_json (data.infrastructure.getD [])
     else jsonObj [],
   if data.basic_details.visit_type = "Monthly"
     then (match data.community with
           | some c => community_json c
           | none => jsonObj [])
     else jsonObj [],
   media_json data.media]

/-- Outcome of `save_observation`: whether it returned `True`, how many
times `sheet.append_row` was invoked, and the resulting contents of the
"Observations" sheet. -/
structure SaveResult where
  success : Bool
  appendCalls : Nat
  store : List (List String)
deriving DecidableEq

/-- `save_observation` (lines 277-308).  `sheetOk` models whether
`get_or_create_sheet` returned a sheet; `appendOk` models whether the
remote `append_row` call succeeded (its exception is caught at line 302
and converted to a `False` return).  The append is attempted exactly once,
with no retry. -/
def save_observation (sheetOk appendOk : Bool) (timestamp : String)
    (data : ObservationFormData) (store : List (List String)) : SaveResult :=
  if sheetOk then
    if appendOk then ⟨true, 1, store ++ [observation_row timestamp data]⟩
    else ⟨false, 1, store⟩
  else ⟨false, 0, store⟩

/-! ## Teacher addition (`add_new_teacher`, lines 310-336) -/

/-- One row of the "Teachers" sheet. -/
structure TeacherRow where
  school_name : String
  teacher_name : String
  is_trained : Bool
  added_date : String
deriving DecidableEq

/-- Outcome of `add_new_teacher`: return value, resulting table,
whether `append_row` was called, and the `st.error` message shown. -/
structure AddTeacherResult where
  success : Bool
  table : List TeacherRow
  appendCalled : Bool
  errorMessage : Option String
deriving DecidableEq

/-- Python's `str.lower()`, modelled characterwise (the names in this
application are ASCII, where the two coincide). -/
def pyLower (s : String) : String := ⟨s.data.map Char.toLower⟩

/-- `add_new_teacher` (lines 310-336): scans the existing rows and rejects
the insert when the same school already has the same teacher name
case-insensitively (lines 320-324); otherwise appends one row. -/
def add_new_teacher (table : List TeacherRow) (school_name teacher_name : String)
    (is_trained : Bool) (timestamp : String) : AddTeacherResult :=
  if table.any (fun t =>
      t.school_name == school_name && pyLower t.teacher_name == pyLower teacher_name) then
    ⟨false, table, false, some "Teacher already exists in this school"⟩
  else
    ⟨true, table ++ [⟨school_name, teacher_name, is_trained, timestamp⟩], true, none⟩

/-! ## Session state and the wizard step machine -/

/-- The keys of `st.session_state` the wizard uses: the page number, the
session-level `visit_type` variable (line 341 / 364), and the per-step
collected entities.  `none` models an absent key (deleted or never set). -/
structure Session where
  page : Nat
  visit_type : Option String
  basic_details : Option BasicDetails
  teacher_details : Option TeacherDetails
  observations : Option (List (String × ObservationEntry))
  media : Option (List (String × List MediaFile))
  infrastructure : Option (List (String × InfrastructureEntry))
  community : Option CommunityData
deriving DecidableEq

/-- Session state plus the contents of the remote "Observations" sheet. -/
structure AppState where
  session : Session
  store : List (List String)
deriving DecidableEq

/-- Insertion into a Python dictionary modelled as an ordered association
list: an existing key keeps its position and gets the new value; a new key
goes to the end. -/
def dictInsert {α : Type} (d : List (String × α)) (k : String) (v : α) :
    List (String × α) :=
  if d.any (fun kv => kv.1 == k) then
    d.map (fun kv => if kv.1 == k then (kv.1, v) else kv)
  else d ++ [(k, v)]

/-- The dictionary built by a `for teacher in all_teachers:` loop that
assigns `d[teacher] = f teacher` (lines 459-525). -/
def buildTeacherDict {α : Type} (teachers : List String) (f : String → α) :
    List (String × α) :=
  teachers.foldl (fun d t => dictInsert d t (f t)) []

/-- The fixed subject list of `infrastructure_section` (line 548). -/
def subjects : List String := ["Mathematics", "Science", "Language", "Social Studies"]

/-- Session after `submit_form`'s success branch: every key deleted
(lines 655-656), then `page` set back to `1` (line 657). -/
def cleared_session : Session := ⟨1, none, none, none, none, none, none, none⟩

/-- The `data` dictionary assembled by `submit_form` (lines 640-650) from a
session whose `basic_details`, `teacher_details` and `visit_type` are
present: `observations`/`media` default to empty dictionaries, and the
`infrastructure`/`community` keys are included only when the session-level
`visit_type` is `Monthly`. -/
def submitted_data (s : Session) (bd : BasicDetails) (td : TeacherDetails)
    (vt : String) : ObservationFormData :=
  ⟨bd, td, s.observations.getD [], s.media.getD [],
   if vt = "Monthly" then s.infrastructure else none,
   if vt = "Monthly" then s.community else none⟩

/-- `submit_form` (lines 638-660).  Reads `basic_details`,
`teacher_details` (lines 641-642) and `visit_type` (line 648); a missing
key raises (`Except.error`).  On a successful save it deletes every
session key and resets the page to 1; on a failed save it only shows an
error, leaving session and sheet untouched. -/
def submit_form (sheetOk appendOk : Bool) (timestamp : String) (a : AppState) :
    Except AppState AppState :=
  match a.session.basic_details with
  | none => .error a
  | some bd =>
    match a.session.teacher_details with
    | none => .error a
    | some td =>
      match a.session.visit_type with
      | none => .error a
      | some vt =>
        let r := save_observation sheetOk appendOk timestamp
          (submitted_data a.session bd td vt) a.store
        if r.success then .ok ⟨cleared_session, r.store⟩
        else .ok ⟨a.session, a.store⟩

/-- Widget values and button press of one render of page 1
(`basic_details_section`, lines 343-376). -/
structure BasicEvent where
  pm_name : String
  school_name : String
  visit_date : String
  visit_type : String
  nextClicked : Bool

/-- The Previous/Next button pair used on pages 2 and 4. -/
inductive NavButton where
  | prev
  | next
deriving DecidableEq

/-- Widget values and button press of one render of page 2
(`teacher_selection_section`). -/
structure TeacherEvent where
  trained : List String
  untrained : List String
  button : Option NavButton

/-- The Previous/Next-or-Submit button pair of page 3. -/
inductive ObsButton where
  | prev
  | next
deriving DecidableEq

/-- Widget values of one render of page 3
(`classroom_observation_section`): per-teacher metric selections, the
media files whose uploads succeeded for each teacher, the clicked button,
the clock reading and the remote outcomes should a submission happen. -/
structure ObservationEvent where
  metricsOf : String → ObservationEntry
  mediaOf : String → List MediaFile
  button : Option ObsButton
  timestamp : String
  sheetOk : Bool
  appendOk : Bool

/-- Widget values of one render of page 4 (`infrastructure_section`). -/
structure InfrastructureEvent where
  entryOf : String → InfrastructureEntry
  button : Option NavButton

/-- The Previous/Submit button pair of page 5. -/
inductive CommunityButton where
  | prev
  | submit
deriving DecidableEq

/-- Widget values of one render of page 5 (`community_section`). -/
structure CommunityEvent where
  data : CommunityData
  button : Option CommunityButton
  timestamp : String
  sheetOk : Bool
  appendOk : Bool

/-- `basic_details_section` (lines 343-376): the render stores the
selected visit type into the session-level variable (line 364); the Next
button stores `basic_details` and advances to page 2 only when a program
manager is selected and a school was found (line 367). -/
def basic_details_section (a : AppState) (ev : BasicEvent) :
    Except AppState AppState :=
  let s := {a.session with visit_type := some ev.visit_type}
  if ev.nextClicked then
    if ev.pm_name ≠ "" ∧ ev.school_name ≠ "No schools found" then
      .ok ⟨{s with
              basic_details :=
                some ⟨ev.pm_name, ev.school_name, ev.visit_date, ev.visit_type⟩,
              page := 2}, a.store⟩
    else .ok ⟨s, a.store⟩
  else .ok ⟨s, a.store⟩

/-- `teacher_selection_section` (lines 378-436): redirects to page 1 when
`basic_details` is absent (lines 381-384); Previous goes to page 1; Next
stores `teacher_details` and advances only when at least one teacher is
selected.  (The Add-Teacher expander only writes to the remote Teachers
sheet and reruns; it mutates no session key, so it is not an event here —
`add_new_teacher` is modelled separately.) -/
def teacher_selection_section (a : AppState) (ev : TeacherEvent) :
    Except AppState AppState :=
  match a.session.basic_details with
  | none => .ok ⟨{a.session with page := 1}, a.store⟩
  | some _ =>
    match ev.button with
    | some NavButton.prev => .ok ⟨{a.session with page := 1}, a.store⟩
    | some NavButton.next =>
      if ev.trained ≠ [] ∨ ev.untrained ≠ [] then
        .ok ⟨{a.session with
                teacher_details := some ⟨ev.trained, ev.untrained⟩,
                page := 3}, a.store⟩
      else .ok ⟨a.session, a.store⟩
    | none => .ok ⟨a.session, a.store⟩

/-- `classroom_observation_section` (lines 438-539): redirects to page 2
when `teacher_details` is absent; returns without change when no teacher
is selected; otherwise builds the `observations` and `media_data`
dictionaries over `trained + untrained` in order.  The per-teacher loop
reads `basic_details` (line 514), and line 532 reads the session
`visit_type` after the Previous button has already updated the page — both
raise when the key is absent.  Submit (non-Monthly Next) first stores
`observations` and `media` (lines 534-535), then calls `submit_form`. -/
def classroom_observation_section (a : AppState) (ev : ObservationEvent) :
    Except AppState AppState :=
  match a.session.teacher_details with
  | none => .ok ⟨{a.session with page := 2}, a.store⟩
  | some td =>
    let all_teachers := td.trained_teachers ++ td.untrained_teachers
    if all_teachers = [] then .ok ⟨a.session, a.store⟩
    else
      match a.session.basic_details with
      | none => .error a
      | some _ =>
        let observations := buildTeacherDict all_teachers ev.metricsOf
        let media_data := buildTeacherDict all_teachers ev.mediaOf
        let s1 := if ev.button = some ObsButton.prev
                  then {a.session with page := 2} else a.session
        match a.session.visit_type with
        | none => .error ⟨s1, a.store⟩
        | some vt =>
          match ev.button with
          | some ObsButton.next =>
            let s2 := {a.session with
                         observations := some observations,
                         media := some media_data}
            if vt = "Monthly" then .ok ⟨{s2 with page := 4}, a.store⟩
            else submit_form ev.sheetOk ev.appendOk ev.timestamp ⟨s2, a.store⟩
          | _ => .ok ⟨s1, a.store⟩

/-- `infrastructure_section` (lines 541-587): with a non-Monthly visit
type it sets the page back to 3 and returns before rendering anything;
otherwise it stores the rendered per-subject values (line 579) and then
handles Previous (page 3) or Next (page 5). -/
def infrastructure_section (a : AppState) (ev : InfrastructureEvent) :
    Except AppState AppState :=
  match a.session.visit_type with
  | none => .error a
  | some vt =>
    if vt ≠ "Monthly" then .ok ⟨{a.session with page := 3}, a.store⟩
    else
      let s := {a.session with
                  infrastructure :=
                    some (subjects.map (fun sub => (sub, ev.entryOf sub)))}
      match ev.button with
      | some NavButton.prev => .ok ⟨{s with page := 3}, a.store⟩
      | some NavButton.next => .ok ⟨{s with page := 5}, a.store⟩
      | none => .ok ⟨s, a.store⟩

/-- `community_section` (lines 589-636): with a non-Monthly visit type it
sets the page back to 4 and returns; otherwise it stores the rendered
community values (line 628) and then handles Previous (page 4) or
Submit. -/
def community_section (a : AppState) (ev : CommunityEvent) :
    Except AppState AppState :=
  match a.session.visit_type with
  | none => .error a
  | some vt =>
    if vt ≠ "Monthly" then .ok ⟨{a.session with page := 4}, a.store⟩
    else
      let s := {a.session with community := some ev.data}
      match ev.button with
      | some CommunityButton.prev => .ok ⟨{s with page := 4}, a.store⟩
      | some CommunityButton.submit =>
        submit_form ev.sheetOk ev.appendOk ev.timestamp ⟨s, a.store⟩
      | none => .ok ⟨s, a.store⟩

/-- One render of the app: the widget values and button press of the page
that was rendered.  An event for a page other than the current one cannot
occur and is a no-op in `stepE`. -/
inductive Event where
  | basic : BasicEvent → Event
  | teacher : TeacherEvent → Event
  | obs : ObservationEvent → Event
  | infra : InfrastructureEvent → Event
  | community : CommunityEvent → Event

/-- The main page dispatch (lines 663-672): the current page's section
runs with the render's widget values. -/
def stepE (a : AppState) (e : Event) : Except AppState AppState :=
  match e with
  | .basic ev => if a.session.page = 1 then basic_details_section a ev else .ok a
  | .teacher ev => if a.session.page = 2 then teacher_selection_section a ev else .ok a
  | .obs ev => if a.session.page = 3 then classroom_observation_section a ev else .ok a
  | .infra ev => if a.session.page = 4 then infrastructure_section a ev else .ok a
  | .community ev => if a.session.page = 5 then community_section a ev else .ok a

/-- The state after a render, whether or not it raised: Streamlit keeps
the session mutations made before an uncaught exception. -/
def runStep (a : AppState) (e : Event) : AppState :=
  match stepE a e with
  | .ok b => b
  | .error b => b

/-- The initial session (lines 339-341): page 1, visit type `Daily`,
no collected entities, empty Observations sheet. -/
def initState : AppState :=
  ⟨⟨1, some "Daily", none, none, none, none, none, none⟩, []⟩

/-- States reachable from the initial state by renders whose events all
satisfy `P`. -/
inductive Reachable (P : Event → Prop) : AppState → Prop where
  | init : Reachable P initState
  | next : ∀ {a : AppState} {e : Event},
      Reachable P a → P e → Reachable P (runStep a e)

/-- Events of a session in which the user always selects the `Daily` visit
type on page 1. -/
def DailyEvent : Event → Prop
  | .basic ev => ev.visit_type = "Daily"
  | _ => True

/-- Which page numbers a single render can move to from a page past the
first, as a function of the old page and the session visit type.  Page 4
is only entered from page 3 when the session visit type is `Monthly`. -/
def pageStep (oldPage : Nat) (vt : Option String) (newPage : Nat) : Prop :=
  (oldPage = 2 ∧ (newPage = 1 ∨ newPage = 2 ∨ newPage = 3)) ∨
  (oldPage = 3 ∧ (newPage = 2 ∨ newPage = 3 ∨ (newPage = 4 ∧ vt = some "Monthly"))) ∨
  (oldPage = 4 ∧ (newPage = 3 ∨ newPage = 4 ∨ newPage = 5)) ∨
  (oldPage = 5 ∧ (newPage = 4 ∨ newPage = 5))

/-! ## Helper lemmas -/

lemma runStep_eq_of_ok {a b : AppState} {e : Event} (h : stepE a e = .ok b) :
    runStep a e = b := by
  simp [runStep, h]

lemma runStep_eq_of_error {a b : AppState} {e : Event} (h : stepE a e = .error b) :
    runStep a e = b := by
  simp [runStep, h]

lemma submit_form_spec (sheetOk appendOk : Bool) (timestamp : String) (a : AppState)
    (bd : BasicDetails) (td : TeacherDetails) (vt : String)
    (h1 : a.session.basic_details = some bd)
    (h2 : a.session.teacher_details = some td)
    (h3 : a.session.visit_type = some vt) :
    submit_form sheetOk appendOk timestamp a =
      if sheetOk && appendOk then
        .ok ⟨cleared_session,
             a.store ++ [observation_row timestamp (submitted_data a.session bd td vt)]⟩
      else .ok a := by
  cases sheetOk <;> cases appendOk <;>
    simp [submit_form, h1, h2, h3, save_observation]

/-- Case analysis of one render: it leaves the state unchanged; or it is a
page-1 render, which always stores the selected visit type and possibly
stores matching basic details and advances; or it is a render past page 1,
which never touches the visit type or the basic details and moves the page
along `pageStep`; or it is a successful submission, which clears the
session. -/
lemma runStep_spec (a : AppState) (e : Event) :
    runStep a e = a
    ∨ (a.session.page = 1 ∧ ∃ ev : BasicEvent, e = Event.basic ev ∧
        (runStep a e).session.visit_type = some ev.visit_type ∧
        ((runStep a e).session.page = 1 ∨
          ((runStep a e).session.page = 2 ∧
            (runStep a e).session.basic_details =
              some ⟨ev.pm_name, ev.school_name, ev.visit_date, ev.visit_type⟩)))
    ∨ (a.session.page ≠ 1
        ∧ (runStep a e).session.visit_type = a.session.visit_type
        ∧ (runStep a e).session.basic_details = a.session.basic_details
        ∧ pageStep a.session.page a.session.visit_type (runStep a e).session.page)
    ∨ (a.session.page ≠ 1 ∧ (runStep a e).session = cleared_session) := by
  cases e with
  | basic ev =>
    by_cases hp : a.session.page = 1
    · right; left
      refine ⟨hp, ev, rfl, ?_⟩
      by_cases hnext : ev.nextClicked
      · by_cases hvalid : ev.pm_name ≠ "" ∧ ev.school_name ≠ "No schools found"
        · have h : stepE a (Event.basic ev) =
              .ok ⟨{a.session with
                      visit_type := some ev.visit_type
                      basic_details :=
                        some ⟨ev.pm_name, ev.school_name, ev.visit_date, ev.visit_type⟩
                      page := 2}, a.store⟩ := by
            simp [stepE, hp, basic_details_section, hnext, hvalid]
          rw [runStep_eq_of_ok h]
          simp
        · have h : stepE a (Event.basic ev) =
              .ok ⟨{a.session with visit_type := some ev.visit_type}, a.store⟩ := by
            simp [stepE, hp, basic_details_section, hnext, hvalid]
          rw [runStep_eq_of_ok h]
          simp [hp]
      · have h : stepE a (Event.basic ev) =
            .ok ⟨{a.session with visit_type := some ev.visit_type}, a.store⟩ := by
          simp [stepE, hp, basic_details_section, hnext]
        rw [runStep_eq_of_ok h]
        simp [hp]
    · left
      have h : stepE a (Event.basic ev) = .ok a := by simp [stepE, hp]
      rw [runStep_eq_of_ok h]
  | teacher ev =>
    by_cases hp : a.session.page = 2
    · rcases hbd : a.session.basic_details with _ | bd
      · right; right; left
        have h : stepE a (Event.teacher ev) =
            .ok ⟨{a.session with page := 1}, a.store⟩ := by
          simp [stepE, hp, teacher_selection_section, hbd]
        rw [runStep_eq_of_ok h]
        exact ⟨by simp [hp], rfl, hbd, Or.inl ⟨hp, Or.inl rfl⟩⟩
      · rcases hbtn : ev.button with _ | b
        · left
          have h : stepE a (Event.teacher ev) = .ok a := by
            simp [stepE, hp, teacher_selection_section, hbd, hbtn]
          rw [runStep_eq_of_ok h]
        · cases b with
          | prev =>
            right; right; left
            have h : stepE a (Event.teacher ev) =
                .ok ⟨{a.session with page := 1}, a.store⟩ := by
              simp [stepE, hp, teacher_selection_section, hbd, hbtn]
            rw [runStep_eq_of_ok h]
            exact ⟨by simp [hp], rfl, hbd, Or.inl ⟨hp, Or.inl rfl⟩⟩
          | next =>
            by_cases hsel : ev.trained ≠ [] ∨ ev.untrained ≠ []
            · right; right; left
              have h : stepE a (Event.teacher ev) =
                  .ok ⟨{a.session with
                          teacher_details := some ⟨ev.trained, ev.untrained⟩
                          page := 3}, a.store⟩ := by
                simp [stepE, hp, teacher_selection_section, hbd, hbtn, hsel]
              rw [runStep_eq_of_ok h]
              exact ⟨by simp [hp], rfl, hbd, Or.inl ⟨hp, Or.inr (Or.inr rfl)⟩⟩
            · left
              have h : stepE a (Event.teacher ev) = .ok a := by
                simp [stepE, hp, teacher_selection_section, hbd, hbtn, hsel]
              rw [runStep_eq_of_ok h]
    · left
      have h : stepE a (Event.teacher ev) = .ok a := by simp [stepE, hp]
      rw [runStep_eq_of_ok h]
  | obs ev =>
    by_cases hp : a.session.page = 3
    · rcases htd : a.session.teacher_details with _ | td
      · right; right; left
        have h : stepE a (Event.obs ev) =
            .ok ⟨{a.session with page := 2}, a.store⟩ := by
          simp [stepE, hp, classroom_observation_section, htd]
        rw [runStep_eq_of_ok h]
        exact ⟨by simp [hp], rfl, rfl, Or.inr (Or.inl ⟨hp, Or.inl rfl⟩)⟩
      · by_cases hall : td.trained_teachers ++ td.untrained_teachers = []
        · left
          have h : stepE a (Event.obs ev) = .ok a := by
            simp [stepE, hp, classroom_observation_section, htd, hall]
          rw [runStep_eq_of_ok h]
        · rcases hbd : a.session.basic_details with _ | bd
          · left
            have h : stepE a (Event.obs ev) = .error a := by
              simp [stepE, hp, classroom_observation_section, htd, hall, hbd]
            rw [runStep_eq_of_error h]
          · rcases hvt : a.session.visit_type with _ | vt
            · by_cases hbtn : ev.button = some ObsButton.prev
              · right; right; left
                have h : stepE a (Event.obs ev) =
                    .error ⟨{a.session with page := 2}, a.store⟩ := by
                  simp [stepE, hp, classroom_observation_section, htd, hall, hbd,
                    hvt, hbtn]
                rw [runStep_eq_of_error h]
                exact ⟨by simp [hp], hvt, hbd, Or.inr (Or.inl ⟨hp, Or.inl rfl⟩)⟩
              · left
                have h : stepE a (Event.obs ev) = .error a := by
                  simp [stepE, hp, classroom_observation_section, htd, hall, hbd,
                    hvt, hbtn]
                rw [runStep_eq_of_error h]
            · rcases hbtn : ev.button with _ | b
              · left
                have h : stepE a (Event.obs ev) = .ok a := by
                  simp [stepE, hp, classroom_observation_section, htd, hall, hbd,
                    hvt, hbtn]
                rw [runStep_eq_of_ok h]
              · cases b with
                | prev =>
                  right; right; left
                  have h : stepE a (Event.obs ev) =
                      .ok ⟨{a.session with page := 2}, a.store⟩ := by
                    simp [stepE, hp, classroom_observation_section, htd, hall, hbd,
                      hvt, hbtn]
                  rw [runStep_eq_of_ok h]
                  exact ⟨by simp [hp], hvt, hbd, Or.inr (Or.inl ⟨hp, Or.inl rfl⟩)⟩
                | next =>
                  by_cases hm : vt = "Monthly"
                  · right; right; left
                    have h : stepE a (Event.obs ev) =
                        .ok ⟨{a.session with
                                observations := some (buildTeacherDict
                                  (td.trained_teachers ++ td.untrained_teachers)
                                  ev.metricsOf)
                                media := some (buildTeacherDict
                                  (td.trained_teachers ++ td.untrained_teachers)
                                  ev.mediaOf)
                                page := 4}, a.store⟩ := by
                      simp [stepE, hp, classroom_observation_section, htd, hall, hbd,
                        hvt, hbtn, hm]
                    rw [runStep_eq_of_ok h]
                    refine ⟨by simp [hp], hvt, hbd, ?_⟩
                    exact Or.inr (Or.inl ⟨hp, Or.inr (Or.inr ⟨rfl, by rw [hm]⟩)⟩)
                  · have h : stepE a (Event.obs ev) =
                        submit_form ev.sheetOk ev.appendOk ev.timestamp
                          ⟨{a.session with
                              observations := some (buildTeacherDict
                                (td.trained_teachers ++ td.untrained_teachers)
                                ev.metricsOf)
                              media := some (buildTeacherDict
                                (td.trained_teachers ++ td.untrained_teachers)
                                ev.mediaOf)}, a.store⟩ := by
                      simp [stepE, hp, classroom_observation_section, htd, hall, hbd,
                        hvt, hbtn, hm]
                    rw [show runStep a (Event.obs ev) =
                        (match stepE a (Event.obs ev) with
                         | .ok b => b | .error b => b) from rfl, h,
                      submit_form_spec ev.sheetOk ev.appendOk ev.timestamp _ bd td vt
                        (by simpa using hbd) (by simpa using htd) (by simpa using hvt)]
                    by_cases hok : ev.sheetOk && ev.appendOk
                    · right; right; right
                      rw [if_pos hok]
                      exact ⟨by simp [hp], rfl⟩
                    · right; right; left
                      rw [if_neg hok]
                      exact ⟨by simp [hp], hvt, hbd, Or.inr (Or.inl ⟨hp, Or.inr (Or.inl hp)⟩)⟩
    · left
      have h : stepE a (Event.obs ev) = .ok a := by simp [stepE, hp]
      rw [runStep_eq_of_ok h]
  | infra ev =>
    by_cases hp : a.session.page = 4
    · rcases hvt : a.session.visit_type with _ | vt
      · left
        have h : stepE a (Event.infra ev) = .error a := by
          simp [stepE, hp, infrastructure_section, hvt]
        rw [runStep_eq_of_error h]
      · by_cases hm : vt = "Monthly"
        · rcases hbtn : ev.button with _ | b
          · right; right; left
            have h : stepE a (Event.infra ev) =
                .ok ⟨{a.session with
                        infrastructure :=
                          some (subjects.map (fun sub => (sub, ev.entryOf sub)))},
                     a.store⟩ := by
              simp [stepE, hp, infrastructure_section, hvt, hm, hbtn]
            rw [runStep_eq_of_ok h]
            exact ⟨by simp [hp], hvt, rfl,
              Or.inr (Or.inr (Or.inl ⟨hp, Or.inr (Or.inl hp)⟩))⟩
          · cases b with
            | prev =>
              right; right; left
              have h : stepE a (Event.infra ev) =
                  .ok ⟨{a.session with
                          infrastructure :=
                            some (subjects.map (fun sub => (sub, ev.entryOf sub)))
                          page := 3}, a.store⟩ := by
                simp [stepE, hp, infrastructure_section, hvt, hm, hbtn]
              rw [runStep_eq_of_ok h]
              exact ⟨by simp [hp], hvt, rfl,
                Or.inr (Or.inr (Or.inl ⟨hp, Or.inl rfl⟩))⟩
            | next =>
              right; right; left
              have h : stepE a (Event.infra ev) =
                  .ok ⟨{a.session with
                          infrastructure :=
                            some (subjects.map (fun sub => (sub, ev.entryOf sub)))
                          page := 5}, a.store⟩ := by
                simp [stepE, hp, infrastructure_section, hvt, hm, hbtn]
              rw [runStep_eq_of_ok h]
              exact ⟨by simp [hp], hvt, rfl,
                Or.inr (Or.inr (Or.inl ⟨hp, Or.inr (Or.inr rfl)⟩))⟩
        · right; right; left
          have h : stepE a (Event.infra ev) =
              .ok ⟨{a.session with page := 3}, a.store⟩ := by
            simp [stepE, hp, infrastructure_section, hvt, hm]
          rw [runStep_eq_of_ok h]
          exact ⟨by simp [hp], hvt, rfl,
            Or.inr (Or.inr (Or.inl ⟨hp, Or.inl rfl⟩))⟩
    · left
      have h : stepE a (Event.infra ev) = .ok a := by simp [stepE, hp]
      rw [runStep_eq_of_ok h]
  | community ev =>
    by_cases hp : a.session.page = 5
    · rcases hvt : a.session.visit_type with _ | vt
      · left
        have h : stepE a (Event.community ev) = .error a := by
          simp [stepE, hp, community_section, hvt]
        rw [runStep_eq_of_error h]
      · by_cases hm : vt = "Monthly"
        · rcases hbtn : ev.button with _ | b
          · right; right; left
            have h : stepE a (Event.community ev) =
                .ok ⟨{a.session with community := some ev.data}, a.store⟩ := by
              simp [stepE, hp, community_section, hvt, hm, hbtn]
            rw [runStep_eq_of_ok h]
            exact ⟨by simp [hp], hvt, rfl,
              Or.inr (Or.inr (Or.inr ⟨hp, Or.inr hp⟩))⟩
          · cases b with
            | prev =>
              right; right; left
              have h : stepE a (Event.community ev) =
                  .ok ⟨{a.session with
                          community := some ev.data
                          page := 4}, a.store⟩ := by
                simp [stepE, hp, community_section, hvt, hm, hbtn]
              rw [runStep_eq_of_ok h]
              exact ⟨by simp [hp], hvt, rfl,
                Or.inr (Or.inr (Or.inr ⟨hp, Or.inl rfl⟩))⟩
            | submit =>
              have h : stepE a (Event.community ev) =
                  submit_form ev.sheetOk ev.appendOk ev.timestamp
                    ⟨{a.session with community := some ev.data}, a.store⟩ := by
                simp [stepE, hp, community_section, hvt, hm, hbtn]
              rcases hbd : a.session.basic_details with _ | bd
              · right; right; left
                have herr : stepE a (Event.community ev) =
                    .error ⟨{a.session with community := some ev.data}, a.store⟩ := by
                  rw [h, submit_form]
                  simp [hbd]
                rw [runStep_eq_of_error herr]
                exact ⟨by simp [hp], hvt, hbd,
                  Or.inr (Or.inr (Or.inr ⟨hp, Or.inr hp⟩))⟩
              · rcases htd : a.session.teacher_details with _ | td
                · right; right; left
                  have herr : stepE a (Event.community ev) =
                      .error ⟨{a.session with community := some ev.data}, a.store⟩ := by
                    rw [h, submit_form]
                    simp [hbd, htd]
                  rw [runStep_eq_of_error herr]
                  exact ⟨by simp [hp], hvt, hbd,
                    Or.inr (Or.inr (Or.inr ⟨hp, Or.inr hp⟩))⟩
                · rw [show runStep a (Event.community ev) =
                      (match stepE a (Event.community ev) with
                       | .ok b => b | .error b => b) from rfl, h,
                    submit_form_spec ev.sheetOk ev.appendOk ev.timestamp _ bd td vt
                      (by simpa using hbd) (by simpa using htd) (by simpa using hvt)]
                  by_cases hok : ev.sheetOk && ev.appendOk
                  · right; right; right
                    rw [if_pos hok]
                    exact ⟨by simp [hp], rfl⟩
                  · right; right; left
                    rw [if_neg hok]
                    exact ⟨by simp [hp], hvt, hbd,
                      Or.inr (Or.inr (Or.inr ⟨hp, Or.inr hp⟩))⟩
        · right; right; left
          have h : stepE a (Event.community ev) =
              .ok ⟨{a.session with page := 4}, a.store⟩ := by
            simp [stepE, hp, community_section, hvt, hm]
          rw [runStep_eq_of_ok h]
          exact ⟨by simp [hp], hvt, rfl,
            Or.inr (Or.inr (Or.inr ⟨hp, Or.inl rfl⟩))⟩
    · left
      have h : stepE a (Event.community ev) = .ok a := by simp [stepE, hp]
      rw [runStep_eq_of_ok h]

lemma dictInsert_of_not_mem {α : Type} {d : List (String × α)} {k : String} {v : α}
    (h : ∀ kv ∈ d, kv.1 ≠ k) : dictInsert d k v = d ++ [(k, v)] := by
  have hany : d.any (fun kv => kv.1 == k) = false := by
    simp only [List.any_eq_false]
    intro kv hkv
    simpa using h kv hkv
  simp [dictInsert, hany]

lemma foldl_dictInsert {α : Type} (f : String → α) (l : List String) :
    ∀ d : List (String × α), l.Nodup → (∀ k ∈ l, ∀ kv ∈ d, kv.1 ≠ k) →
      l.foldl (fun acc t => dictInsert acc t (f t)) d = d ++ l.map (fun t => (t, f t)) := by
  induction l with
  | nil => intro d _ _; simp
  | cons t l ih =>
    intro d hnd hdisj
    rw [List.foldl_cons, dictInsert_of_not_mem (fun kv hkv => hdisj t (by simp) kv hkv),
      ih (d ++ [(t, f t)]) (List.Nodup.of_cons hnd) ?_]
    · simp
    · intro k hk kv hkv
      rcases List.mem_append.mp hkv with h1 | h2
      · exact hdisj k (by simp [hk]) kv h1
      · have hkv2 : kv = (t, f t) := by simpa using h2
        subst hkv2
        have hnotin : t ∉ l := (List.nodup_cons.mp hnd).1
        intro he
        have ht : t = k := he
        rw [← ht] at hk
        exact hnotin hk

/-- Invariant of sessions that always select the `Daily` visit type: the
page stays in 1-3, and past page 1 the session visit type is `Daily`. -/
lemma reachable_daily_inv {a : AppState} (h : Reachable DailyEvent a) :
    (a.session.page = 1 ∨ a.session.page = 2 ∨ a.session.page = 3) ∧
    (a.session.page ≠ 1 → a.session.visit_type = some "Daily") := by
  induction h with
  | init => simp [initState]
  | next hr hP ih =>
    rename_i a e
    rcases runStep_spec a e with heq | ⟨hp1, ev, hev, hvt, hres⟩ |
      ⟨hp, hvt, hbd, hps⟩ | ⟨hp, hcl⟩
    · rw [heq]; exact ih
    · subst hev
      have hdaily : ev.visit_type = "Daily" := hP
      constructor
      · rcases hres with h1 | ⟨h2, _⟩
        · exact Or.inl h1
        · exact Or.inr (Or.inl h2)
      · intro _
        rw [hvt, hdaily]
    · have hold : a.session.page = 2 ∨ a.session.page = 3 := by
        rcases ih.1 with h1 | h1 | h1
        · exact absurd h1 hp
        · exact Or.inl h1
        · exact Or.inr h1
      have hvtd : a.session.visit_type = some "Daily" := ih.2 hp
      constructor
      · rcases hps with ⟨_, hnew⟩ | ⟨_, hnew⟩ | ⟨h4, _⟩ | ⟨h5, _⟩
        · exact hnew
        · rcases hnew with hn | hn | ⟨_, hm⟩
          · exact Or.inr (Or.inl hn)
          · exact Or.inr (Or.inr hn)
          · rw [hvtd] at hm
            exact absurd (Option.some.inj hm) (by decide)
        · rcases hold with h1 | h1 <;> omega
        · rcases hold with h1 | h1 <;> omega
      · intro _
        rw [hvt, hvtd]
    · constructor
      · exact Or.inl (by rw [hcl]; rfl)
      · intro hne
        exact absurd (by rw [hcl]; rfl) hne

/-- Invariant: in every reachable state past page 1 in which basic details
are stored, the session visit-type variable agrees with the one stored in
the basic details (both are written together by the page-1 Next
handler, and no later page writes either). -/
lemma reachable_visit_type_inv {a : AppState} (h : Reachable (fun _ => True) a) :
    ∀ bd : BasicDetails, a.session.basic_details = some bd →
      a.session.page ≠ 1 → a.session.visit_type = some bd.visit_type := by
  induction h with
  | init =>
    intro bd hbd _
    simp [initState] at hbd
  | next hr hP ih =>
    rename_i a e
    rcases runStep_spec a e with heq | ⟨hp1, ev, hev, hvt, hres⟩ |
      ⟨hp, hvt, hbd, hps⟩ | ⟨hp, hcl⟩
    · rw [heq]; exact ih
    · intro bd hbd hne
      rcases hres with h1 | ⟨_, hbd2⟩
      · exact absurd h1 hne
      · rw [hbd2] at hbd
        have hbdv := Option.some.inj hbd
        rw [hvt, ← hbdv]
    · intro bd hbdnew hne
      rw [hvt]
      rw [hbd] at hbdnew
      exact ih bd hbdnew hp
    · intro bd hbdnew _
      rw [hcl] at hbdnew
      exact absurd hbdnew (by simp [cleared_session])

/-- When the teachers are pairwise distinct, the dictionary built by the
per-teacher loop is exactly the association list in loop order. -/
lemma buildTeacherDict_eq_map {α : Type} (teachers : List String) (f : String → α)
    (h : teachers.Nodup) :
    buildTeacherDict teachers f = teachers.map (fun t => (t, f t)) := by
  have hfold := foldl_dictInsert f teachers [] h (by simp)
  simpa [buildTeacherDict] using hfold

/-! ## Claim theorems -/

/-- C1: in every session that always selects the `Daily` visit type, the
reachable wizard states are exactly Basic Details (page 1), Teacher
Selection (page 2), Classroom Observation (page 3) and Submitted (a row
appended to the sheet, reached directly from page 3): pages 4
(Infrastructure) and 5 (Community) are never reached, all three pages and
a submitted state are actually reachable, and rendering page 4 or page 5
with any non-Monthly visit type immediately routes back (to page 3,
respectively page 4) without storing any section data. -/
theorem C1_daily_reachable_states :
    (∀ a : AppState, Reachable DailyEvent a →
      a.session.page = 1 ∨ a.session.page = 2 ∨ a.session.page = 3) ∧
    (∃ a : AppState, Reachable DailyEvent a ∧ a.session.page = 2) ∧
    (∃ a : AppState, Reachable DailyEvent a ∧ a.session.page = 3) ∧
    (∃ a : AppState, Reachable DailyEvent a ∧ a.store.length = 1 ∧
      a.session.page = 1) ∧
    (∀ (a : AppState) (ev : InfrastructureEvent) (v : String),
      a.session.page = 4 → a.session.visit_type = some v → v ≠ "Monthly" →
      stepE a (Event.infra ev) = .ok ⟨{a.session with page := 3}, a.store⟩) ∧
    (∀ (a : AppState) (ev : CommunityEvent) (v : String),
      a.session.page = 5 → a.session.visit_type = some v → v ≠ "Monthly" →
      stepE a (Event.community ev) = .ok ⟨{a.session with page := 4}, a.store⟩) := by
  refine ⟨?_, ?_, ?_, ?_, ?_, ?_⟩
  · intro a h
    exact (reachable_daily_inv h).1
  · exact ⟨runStep initState
      (Event.basic ⟨"Asha", "Greenfield", "2024-05-01", "Daily", true⟩),
      Reachable.next Reachable.init rfl, rfl⟩
  · exact ⟨runStep (runStep initState
      (Event.basic ⟨"Asha", "Greenfield", "2024-05-01", "Daily", true⟩))
      (Event.teacher ⟨["R. Singh"], [], some NavButton.next⟩),
      Reachable.next (Reachable.next Reachable.init rfl) trivial, rfl⟩
  · exact ⟨runStep (runStep (runStep initState
      (Event.basic ⟨"Asha", "Greenfield", "2024-05-01", "Daily", true⟩))
      (Event.teacher ⟨["R. Singh"], [], some NavButton.next⟩))
      (Event.obs ⟨fun _ => ⟨⟨"Yes", "Yes", "Yes"⟩, ⟨"Yes", "Yes", "Yes"⟩⟩,
        fun _ => [], some ObsButton.next, "2024-05-01 10:00:00", true, true⟩),
      Reachable.next (Reachable.next (Reachable.next Reachable.init rfl)
        trivial) trivial, rfl, rfl⟩
  · intro a ev v hp hvt hm
    simp [stepE, hp, infrastructure_section, hvt, hm]
  · intro a ev v hp hvt hm
    simp [stepE, hp, community_section, hvt, hm]

/-- Witness for C1: the page-4 guard at a concrete Daily-session state. -/
theorem C1_witness :
    stepE ⟨⟨4, some "Daily", none, none, none, none, none, none⟩, []⟩
        (Event.infra ⟨fun _ => ⟨"Yes", "Yes", "Good"⟩, none⟩) =
      .ok ⟨⟨3, some "Daily", none, none, none, none, none, none⟩, []⟩ :=
  C1_daily_reachable_states.2.2.2.2.1
    ⟨⟨4, some "Daily", none, none, none, none, none, none⟩, []⟩
    ⟨fun _ => ⟨"Yes", "Yes", "Good"⟩, none⟩ "Daily" rfl rfl (by decide)

/-- C10 counterexample: the claimed invariant "in every reachable session
state in which basic details have been stored, the session-level
visit-type variable equals the one in the basic details" is false.
Re-entering page 1 after completing it (Previous from page 2) and changing
the visit-type selectbox reruns the script, which stores the new selection
into `st.session_state.visit_type` (line 364) without touching the stored
`basic_details`.  The resulting state is reachable, has basic details with
visit type `Daily`, and session visit type `Monthly`. -/
theorem C10_counterexample :
    Reachable (fun _ => True)
      ⟨⟨1, some "Monthly", some ⟨"Asha", "Greenfield", "2024-05-01", "Daily"⟩,
        none, none, none, none, none⟩, []⟩ ∧
    (⟨"Asha", "Greenfield", "2024-05-01", "Daily"⟩ : BasicDetails).visit_type =
      "Daily" ∧
    (some "Monthly" : Option String) ≠ some "Daily" := by
  refine ⟨?_, rfl, by decide⟩
  have htrace :
      (⟨⟨1, some "Monthly", some ⟨"Asha", "Greenfield", "2024-05-01", "Daily"⟩,
         none, none, none, none, none⟩, []⟩ : AppState) =
      runStep (runStep (runStep initState
        (Event.basic ⟨"Asha", "Greenfield", "2024-05-01", "Daily", true⟩))
        (Event.teacher ⟨[], [], some NavButton.prev⟩))
        (Event.basic ⟨"Asha", "Greenfield", "2024-05-01", "Monthly", false⟩) := rfl
  rw [htrace]
  exact Reachable.next (Reachable.next (Reachable.next Reachable.init
    trivial) trivial) trivial

/-- C10 amended: the invariant holds in every reachable state that is past
the Basic Details page: there, the session-level visit-type variable
equals the one stored in the basic details, so the page-routing guards and
`submit_form` (which read the session variable) and `save_observation`
(which reads the stored basic details) agree on whether the visit is
Monthly whenever a submission or a page past 1 is being processed.  While
the user sits on page 1, changing the visit-type selectbox can make the
two disagree until Next rewrites both together. -/
theorem C10_amended_visit_type_invariant (a : AppState)
    (h : Reachable (fun _ => True) a) (bd : BasicDetails)
    (hbd : a.session.basic_details = some bd) (hp : a.session.page ≠ 1) :
    a.session.visit_type = some bd.visit_type :=
  reachable_visit_type_inv h bd hbd hp

/-- Witness for the amended C10 at the concrete state reached by
completing page 1 with a Daily selection. -/
theorem C10_amended_witness :
    (runStep initState
      (Event.basic ⟨"Asha", "Greenfield", "2024-05-01", "Daily", true⟩)).session.visit_type =
        some "Daily" :=
  C10_amended_visit_type_invariant
    (runStep initState (Event.basic ⟨"Asha", "Greenfield", "2024-05-01", "Daily", true⟩))
    (Reachable.next Reachable.init trivial)
    ⟨"Asha", "Greenfield", "2024-05-01", "Daily"⟩ rfl (by decide)

/-- C2: for every submitted record whose visit type is not `Monthly`, the
Infrastructure Data and Community Data columns of the persisted row
serialize to the empty-object string, regardless of whether infrastructure
or community data was collected in the session (defensive clearing at
`save_observation` lines 293-294).  The row's Visit Type column is the
visit type stored in `basic_details`. -/
theorem C2_non_monthly_clears_infra_and_community (timestamp : String)
    (data : ObservationFormData) (h : data.basic_details.visit_type ≠ "Monthly") :
    (observation_row timestamp data)[4]? = some data.basic_details.visit_type ∧
    (observation_row timestamp data)[7]? = some "\x7b\x7d" ∧
    (observation_row timestamp data)[8]? = some "\x7b\x7d" := by
  have h7 : (observation_row timestamp data)[7]? =
      some (if data.basic_details.visit_type = "Monthly"
        then infrastructure_json (data.infrastructure.getD [])
        else jsonObj []) := rfl
  have h8 : (observation_row timestamp data)[8]? =
      some (if data.basic_details.visit_type = "Monthly"
        then (match data.community with
              | some c => community_json c
              | none => jsonObj [])
        else jsonObj []) := rfl
  rw [h7, h8, if_neg h, if_neg h]
  exact ⟨rfl, rfl, rfl⟩

/-- Witness for C2: the spec's scenario — a Daily visit at Greenfield with
one observed trained teacher, all metrics `Yes`, no media. -/
theorem C2_witness :
    (observation_row "2024-05-01 10:00:00"
        ⟨⟨"Asha", "Greenfield", "2024-05-01", "Daily"⟩, ⟨["R. Singh"], []⟩,
         [("R. Singh", ⟨⟨"Yes", "Yes", "Yes"⟩, ⟨"Yes", "Yes", "Yes"⟩⟩)],
         [("R. Singh", [])], none, none⟩)[7]? = some "\x7b\x7d" ∧
    (observation_row "2024-05-01 10:00:00"
        ⟨⟨"Asha", "Greenfield", "2024-05-01", "Daily"⟩, ⟨["R. Singh"], []⟩,
         [("R. Singh", ⟨⟨"Yes", "Yes", "Yes"⟩, ⟨"Yes", "Yes", "Yes"⟩⟩)],
         [("R. Singh", [])], none, none⟩)[8]? = some "\x7b\x7d" :=
  ⟨(C2_non_monthly_clears_infra_and_community "2024-05-01 10:00:00" _ (by decide)).2.1,
   (C2_non_monthly_clears_infra_and_community "2024-05-01 10:00:00" _ (by decide)).2.2⟩

/-- C3: the `observations` dictionary is built by one loop over
`trained_teachers + untrained_teachers` (`classroom_observation_section`,
lines 446-508), so the per-teacher entries of the serialized Observations
column appear with all trained teachers first, then all untrained
teachers, each group in original selection order.  The hypothesis that the
concatenated selection has no duplicate name reflects the UI: each
multiselect returns distinct options, and a name appearing in both groups
would give two widgets the same key, which Streamlit rejects before
anything can be submitted. -/
theorem C3_serialized_observation_order (td : TeacherDetails)
    (f : String → ObservationEntry)
    (h : (td.trained_teachers ++ td.untrained_teachers).Nodup) :
    buildTeacherDict (td.trained_teachers ++ td.untrained_teachers) f =
      td.trained_teachers.map (fun t => (t, f t)) ++
        td.untrained_teachers.map (fun t => (t, f t)) ∧
    ∀ (timestamp : String) (data : ObservationFormData),
      data.observations = buildTeacherDict (td.trained_teachers ++ td.untrained_teachers) f →
      (observation_row timestamp data)[6]? =
        some (jsonObj
          (td.trained_teachers.map (fun t => (t, observation_entry_json (f t))) ++
           td.untrained_teachers.map (fun t => (t, observation_entry_json (f t))))) := by
  have hb := buildTeacherDict_eq_map (td.trained_teachers ++ td.untrained_teachers) f h
  constructor
  · rw [hb, List.map_append]
  · intro timestamp data hdata
    have h6 : (observation_row timestamp data)[6]? =
        some (observations_json data.observations) := rfl
    rw [h6, hdata, hb]
    simp [observations_json, List.map_append, List.map_map, Function.comp_def]

/-- Witness for C3: one trained and one untrained teacher. -/
theorem C3_witness :
    (observation_row "2024-05-01 10:00:00"
        ⟨⟨"Asha", "Greenfield", "2024-05-01", "Daily"⟩, ⟨["A"], ["B"]⟩,
         buildTeacherDict ["A", "B"]
           (fun _ => ⟨⟨"Yes", "Yes", "Yes"⟩, ⟨"Yes", "Yes", "Yes"⟩⟩),
         [], none, none⟩)[6]? =
      some (jsonObj
        [("A", observation_entry_json ⟨⟨"Yes", "Yes", "Yes"⟩, ⟨"Yes", "Yes", "Yes"⟩⟩),
         ("B", observation_entry_json ⟨⟨"Yes", "Yes", "Yes"⟩, ⟨"Yes", "Yes", "Yes"⟩⟩)]) := by
  have hmain := (C3_serialized_observation_order ⟨["A"], ["B"]⟩
    (fun _ => ⟨⟨"Yes", "Yes", "Yes"⟩, ⟨"Yes", "Yes", "Yes"⟩⟩) (by decide)).2
    "2024-05-01 10:00:00"
    ⟨⟨"Asha", "Greenfield", "2024-05-01", "Daily"⟩, ⟨["A"], ["B"]⟩,
     buildTeacherDict ["A", "B"]
       (fun _ => ⟨⟨"Yes", "Yes", "Yes"⟩, ⟨"Yes", "Yes", "Yes"⟩⟩),
     [], none, none⟩ rfl
  simpa using hmain

/-- C4: record assembly is deterministic in its JSON fields.  The only
input of `save_observation`'s row assembly that is not an argument is the
clock reading, and it only enters the Timestamp column: the five
serialized JSON columns (Teacher Details, Observations, Infrastructure
Data, Community Data, Media) are byte-identical across two runs on
identical collected inputs, whatever the two clock readings are, with key
ordering preserved. -/
theorem C4_assembly_deterministic (t1 t2 : String) (data : ObservationFormData) :
    (observation_row t1 data).drop 5 = (observation_row t2 data).drop 5 := rfl

/-- C5: rendering the Teacher Selection page while no basic details have
been stored redirects to page 1 without raising and without touching any
collected entity or the sheet (`teacher_selection_section` lines
381-384). -/
theorem C5_teacher_selection_guard (a : AppState) (ev : TeacherEvent)
    (hp : a.session.page = 2) (hb : a.session.basic_details = none) :
    stepE a (Event.teacher ev) = .ok ⟨{a.session with page := 1}, a.store⟩ := by
  simp [stepE, hp, teacher_selection_section, hb]

/-- Witness for C5 at a concrete page-2 session with no basic details. -/
theorem C5_witness :
    stepE ⟨⟨2, some "Daily", none, none, none, none, none, none⟩, []⟩
        (Event.teacher ⟨["A"], [], some NavButton.next⟩) =
      .ok ⟨⟨1, some "Daily", none, none, none, none, none, none⟩, []⟩ :=
  C5_teacher_selection_guard _ _ rfl rfl

/-- C6: adding a teacher whose name matches an existing teacher of the
same school case-insensitively is rejected: `add_new_teacher` returns
`False`, shows the duplicate error, and `append_row` is not called, so the
Teachers table is unchanged (lines 318-324). -/
theorem C6_duplicate_teacher_rejected (table : List TeacherRow)
    (school nm : String) (is_trained : Bool) (timestamp : String)
    (h : ∃ t ∈ table, t.school_name = school ∧ pyLower t.teacher_name = pyLower nm) :
    (add_new_teacher table school nm is_trained timestamp).success = false ∧
    (add_new_teacher table school nm is_trained timestamp).table = table ∧
    (add_new_teacher table school nm is_trained timestamp).appendCalled = false ∧
    (add_new_teacher table school nm is_trained timestamp).errorMessage =
      some "Teacher already exists in this school" := by
  have hany : table.any (fun t =>
      t.school_name == school && pyLower t.teacher_name == pyLower nm) = true := by
    rcases h with ⟨t, ht, h1, h2⟩
    simp only [List.any_eq_true, Bool.and_eq_true, beq_iff_eq]
    exact ⟨t, ht, h1, h2⟩
  simp [add_new_teacher, hany]

/-- Witness for C6: `RAVI` duplicates `Ravi` at the same school. -/
theorem C6_witness :
    (add_new_teacher [⟨"Greenfield", "Ravi", true, "2024-01-01"⟩]
        "Greenfield" "RAVI" false "2024-05-01").success = false ∧
    (add_new_teacher [⟨"Greenfield", "Ravi", true, "2024-01-01"⟩]
        "Greenfield" "RAVI" false "2024-05-01").table =
      [⟨"Greenfield", "Ravi", true, "2024-01-01"⟩] :=
  ⟨(C6_duplicate_teacher_rejected _ _ _ _ _
      ⟨⟨"Greenfield", "Ravi", true, "2024-01-01"⟩, by decide, by decide, by decide⟩).1,
   (C6_duplicate_teacher_rejected _ _ _ _ _
      ⟨⟨"Greenfield", "Ravi", true, "2024-01-01"⟩, by decide, by decide, by decide⟩).2.1⟩

/-- C7: the persist step attempts the sheet append at most once — there is
no retry loop anywhere in `save_observation` — and when the append (or the
sheet lookup) fails, `submit_form` reports failure and leaves the session
and the Observations sheet exactly as they were, so the user can retry. -/
theorem C7_persist_once_failure_preserves_session :
    (∀ (sheetOk appendOk : Bool) (timestamp : String) (data : ObservationFormData)
        (store : List (List String)),
      (save_observation sheetOk appendOk timestamp data store).appendCalls ≤ 1) ∧
    (∀ (sheetOk appendOk : Bool) (timestamp : String) (a : AppState)
        (bd : BasicDetails) (td : TeacherDetails) (vt : String),
      a.session.basic_details = some bd → a.session.teacher_details = some td →
      a.session.visit_type = some vt → (sheetOk = false ∨ appendOk = false) →
      (save_observation sheetOk appendOk timestamp
          (submitted_data a.session bd td vt) a.store).success = false ∧
      (save_observation sheetOk appendOk timestamp
          (submitted_data a.session bd td vt) a.store).store = a.store ∧
      submit_form sheetOk appendOk timestamp a = .ok a) := by
  constructor
  · intro sheetOk appendOk timestamp data store
    cases sheetOk <;> cases appendOk <;> simp [save_observation]
  · intro sheetOk appendOk timestamp a bd td vt h1 h2 h3 hfail
    have hsf : (sheetOk && appendOk) = false := by
      rcases hfail with h | h <;> simp [h]
    cases sheetOk <;> cases appendOk <;>
      simp_all [save_observation, submit_form, h1, h2, h3]

/-- Witness for C7: a failing append on a concrete ready-to-submit
session. -/
theorem C7_witness :
    (save_observation true false "2024-05-01 10:00:00"
        (submitted_data
          ⟨3, some "Daily", some ⟨"Asha", "Greenfield", "2024-05-01", "Daily"⟩,
           some ⟨["R. Singh"], []⟩, none, none, none, none⟩
          ⟨"Asha", "Greenfield", "2024-05-01", "Daily"⟩ ⟨["R. Singh"], []⟩ "Daily")
        []).success = false ∧
    submit_form true false "2024-05-01 10:00:00"
        ⟨⟨3, some "Daily", some ⟨"Asha", "Greenfield", "2024-05-01", "Daily"⟩,
          some ⟨["R. Singh"], []⟩, none, none, none, none⟩, []⟩ =
      .ok ⟨⟨3, some "Daily", some ⟨"Asha", "Greenfield", "2024-05-01", "Daily"⟩,
            some ⟨["R. Singh"], []⟩, none, none, none, none⟩, []⟩ :=
  ⟨(C7_persist_once_failure_preserves_session.2 true false "2024-05-01 10:00:00"
      ⟨⟨3, some "Daily", some ⟨"Asha", "Greenfield", "2024-05-01", "Daily"⟩,
        some ⟨["R. Singh"], []⟩, none, none, none, none⟩, []⟩
      ⟨"Asha", "Greenfield", "2024-05-01", "Daily"⟩ ⟨["R. Singh"], []⟩ "Daily"
      rfl rfl rfl (Or.inr rfl)).1,
   (C7_persist_once_failure_preserves_session.2 true false "2024-05-01 10:00:00"
      ⟨⟨3, some "Daily", some ⟨"Asha", "Greenfield", "2024-05-01", "Daily"⟩,
        some ⟨["R. Singh"], []⟩, none, none, none, none⟩, []⟩
      ⟨"Asha", "Greenfield", "2024-05-01", "Daily"⟩ ⟨["R. Singh"], []⟩ "Daily"
      rfl rfl rfl (Or.inr rfl)).2.2⟩

/-- C9 counterexample: the claim "the retreat (Previous) action changes
only the current-step variable and leaves every already-collected entity
in the session unchanged" is false: `infrastructure_section` stores the
rendered widget values into `st.session_state.infrastructure` on every
render (line 579), before the Previous button is handled (line 583).  A
user on page 4 of a Monthly visit who edits a widget and then clicks
Previous leaves with the infrastructure entity overwritten. -/
theorem C9_counterexample :
    stepE ⟨⟨4, some "Monthly", none, none, none, none,
             some (subjects.map (fun sub => (sub, ⟨"Yes", "Yes", "Good"⟩))), none⟩, []⟩
        (Event.infra ⟨fun _ => ⟨"No", "No", "Poor"⟩, some NavButton.prev⟩) =
      .ok ⟨⟨3, some "Monthly", none, none, none, none,
             some (subjects.map (fun sub => (sub, ⟨"No", "No", "Poor"⟩))), none⟩, []⟩ ∧
    (some (subjects.map (fun sub => ((sub : String), (⟨"No", "No", "Poor"⟩ : InfrastructureEntry)))) ≠
      some (subjects.map (fun sub => (sub, ⟨"Yes", "Yes", "Good"⟩)))) :=
  ⟨rfl, by decide⟩

/-- C9 amended: the retreat (Previous) action changes the current-step
variable to the previous state in the path and leaves every collected
entity unchanged, except that the Infrastructure and Community states
re-store their own section's entity from the currently rendered widget
values on every render (so retreating from them overwrites only that
state's own entity); in particular, navigating back from Community to
Infrastructure in a Monthly visit leaves the stored per-subject
Infrastructure values untouched. -/
theorem C9_amended_retreat_frame :
    (∀ (a : AppState) (ev : TeacherEvent) (bd : BasicDetails),
      a.session.page = 2 → a.session.basic_details = some bd →
      ev.button = some NavButton.prev →
      stepE a (Event.teacher ev) = .ok ⟨{a.session with page := 1}, a.store⟩) ∧
    (∀ (a : AppState) (ev : ObservationEvent) (td : TeacherDetails)
        (bd : BasicDetails) (vt : String),
      a.session.page = 3 → a.session.teacher_details = some td →
      td.trained_teachers ++ td.untrained_teachers ≠ [] →
      a.session.basic_details = some bd → a.session.visit_type = some vt →
      ev.button = some ObsButton.prev →
      stepE a (Event.obs ev) = .ok ⟨{a.session with page := 2}, a.store⟩) ∧
    (∀ (a : AppState) (ev : InfrastructureEvent),
      a.session.page = 4 → a.session.visit_type = some "Monthly" →
      ev.button = some NavButton.prev →
      stepE a (Event.infra ev) =
        .ok ⟨{a.session with
                page := 3
                infrastructure :=
                  some (subjects.map (fun sub => (sub, ev.entryOf sub)))}, a.store⟩) ∧
    (∀ (a : AppState) (ev : CommunityEvent),
      a.session.page = 5 → a.session.visit_type = some "Monthly" →
      ev.button = some CommunityButton.prev →
      stepE a (Event.community ev) =
        .ok ⟨{a.session with
                page := 4
                community := some ev.data}, a.store⟩) := by
  refine ⟨?_, ?_, ?_, ?_⟩
  · intro a ev bd hp hb hbtn
    simp [stepE, hp, teacher_selection_section, hb, hbtn]
  · intro a ev td bd vt hp htd hne hbd hvt hbtn
    simp [stepE, hp, classroom_observation_section, htd, hne, hbd, hvt, hbtn]
  · intro a ev hp hvt hbtn
    simp [stepE, hp, infrastructure_section, hvt, hbtn]
  · intro a ev hp hvt hbtn
    simp [stepE, hp, community_section, hvt, hbtn]

/-- Witness for the amended C9: retreating from Community leaves the
stored Monthly infrastructure values untouched. -/
theorem C9_amended_witness :
    stepE ⟨⟨5, some "Monthly", none, none, none, none,
             some (subjects.map (fun sub => (sub, ⟨"Yes", "Yes", "Good"⟩))), none⟩, []⟩
        (Event.community ⟨⟨"Yes", "Yes", "Yes", "Yes"⟩, some CommunityButton.prev,
                          "2024-05-01 10:00:00", true, true⟩) =
      .ok ⟨⟨4, some "Monthly", none, none, none, none,
             some (subjects.map (fun sub => (sub, ⟨"Yes", "Yes", "Good"⟩))),
             some ⟨"Yes", "Yes", "Yes", "Yes"⟩⟩, []⟩ :=
  C9_amended_retreat_frame.2.2.2
    ⟨⟨5, some "Monthly", none, none, none, none,
       some (subjects.map (fun sub => (sub, ⟨"Yes", "Yes", "Good"⟩))), none⟩, []⟩
    ⟨⟨"Yes", "Yes", "Yes", "Yes"⟩, some CommunityButton.prev,
     "2024-05-01 10:00:00", true, true⟩ rfl rfl rfl

/-- C8: after every successful submission the machine resets to page 1 and
every session key — basic details, teacher selection, observations, media,
infrastructure, community, and even the visit-type variable — is deleted
(`submit_form` lines 652-658), while the persisted row is appended to the
sheet. -/
theorem C8_success_resets_session (a : AppState) (timestamp : String)
    (bd : BasicDetails) (td : TeacherDetails) (vt : String)
    (h1 : a.session.basic_details = some bd)
    (h2 : a.session.teacher_details = some td)
    (h3 : a.session.visit_type = some vt) :
    submit_form true true timestamp a =
      .ok ⟨cleared_session,
           a.store ++ [observation_row timestamp (submitted_data a.session bd td vt)]⟩ ∧
    cleared_session.page = 1 ∧
    cleared_session.visit_type = none ∧
    cleared_session.basic_details = none ∧
    cleared_session.teacher_details = none ∧
    cleared_session.observations = none ∧
    cleared_session.media = none ∧
    cleared_session.infrastructure = none ∧
    cleared_session.community = none := by
  refine ⟨?_, rfl, rfl, rfl, rfl, rfl, rfl, rfl, rfl⟩
  simp [submit_form, h1, h2, h3, save_observation]

/-- Witness for C8 at a concrete ready-to-submit session. -/
theorem C8_witness :
    submit_form true true "2024-05-01 10:00:00"
        ⟨⟨3, some "Daily", some ⟨"Asha", "Greenfield", "2024-05-01", "Daily"⟩,
          some ⟨["R. Singh"], []⟩, none, none, none, none⟩, []⟩ =
      .ok ⟨cleared_session,
           [observation_row "2024-05-01 10:00:00"
             (submitted_data
               ⟨3, some "Daily", some ⟨"Asha", "Greenfield", "2024-05-01", "Daily"⟩,
                some ⟨["R. Singh"], []⟩, none, none, none, none⟩
               ⟨"Asha", "Greenfield", "2024-05-01", "Daily"⟩
               ⟨["R. Singh"], []⟩ "Daily")]⟩ :=
  (C8_success_resets_session
    ⟨⟨3, some "Daily", some ⟨"Asha", "Greenfield", "2024-05-01", "Daily"⟩,
      some ⟨["R. Singh"], []⟩, none, none, none, none⟩, []⟩
    "2024-05-01 10:00:00"
    ⟨"Asha", "Greenfield", "2024-05-01", "Daily"⟩ ⟨["R. Singh"], []⟩ "Daily"
    rfl rfl rfl).1

end SchoolObs
